import Mathlib

/-!
Verification development for the double machine learning estimators of
dml/dml_plr.py (classes DoubleMLPLR and OrthDmlPlr), the manual
cross-fitting reference of dml/tests/test_plr.py, and the PLIV score
construction of doubleml/double_ml_pliv.py (class DoubleMLPLIV).

Vectors are embedded as lists of rationals. Numpy scalar arithmetic is
embedded exactly over the rationals, extended with the IEEE-754 special
values that numpy division produces at a zero denominator; rounding is
abstracted away, which is sound for the algebraic identities and the
error-raising behaviour studied here. Python exceptions are embedded as
an Except error type. Machine-learning regressors are embedded as
deterministic sklearn-style objects: fit stores the training set as the
new fitted state (replacing any previous one, exactly as refitting a
scikit-learn estimator does) and predict is an arbitrary deterministic
function of the fitted state and the query row.
-/

namespace Dml

/-- Python exceptions raised on the embedded code paths. -/
inductive PyError where
  | valueError : String → PyError
  | nameError : String → PyError
  | typeError : String → PyError
  deriving DecidableEq

/-- Numpy float values: exact rationals plus the IEEE-754 special values
produced by dividing by zero (a RuntimeWarning in numpy, never an
exception). -/
inductive NpFloat where
  | fin : ℚ → NpFloat
  | posInf : NpFloat
  | negInf : NpFloat
  | nan : NpFloat
  deriving DecidableEq

/-- Numpy division of two scalars: finite quotient when the denominator is
nonzero; at a zero denominator numpy returns nan for 0/0 and a signed
infinity otherwise, without raising. -/
def npDiv (a b : ℚ) : NpFloat :=
  if b = 0 then
    if a = 0 then .nan else if 0 < a then .posInf else .negInf
  else .fin (a / b)

/-- IEEE-754 addition on the embedded numpy values. -/
def NpFloat.add : NpFloat → NpFloat → NpFloat
  | .nan, _ => .nan
  | _, .nan => .nan
  | .posInf, .negInf => .nan
  | .negInf, .posInf => .nan
  | .posInf, _ => .posInf
  | _, .posInf => .posInf
  | .negInf, _ => .negInf
  | _, .negInf => .negInf
  | .fin a, .fin b => .fin (a + b)

/-- Sum of a 1-D numpy array. -/
def npSum (l : List NpFloat) : NpFloat := l.foldr NpFloat.add (.fin 0)

/-- np.mean of a 1-D array: the sum divided by the length; numpy yields nan
on an empty array, and dividing a signed infinity or nan by a positive
count leaves it unchanged. -/
def npMean (l : List NpFloat) : NpFloat :=
  if l.length = 0 then .nan else
    match npSum l with
    | .fin a => .fin (a / (l.length : ℚ))
    | x => x

/-- Elementwise difference of two equal-length vectors. -/
def listSub (a b : List ℚ) : List ℚ := List.zipWith (fun x y => x - y) a b

/-- Elementwise product (np.multiply) of two equal-length vectors. -/
def listMul (a b : List ℚ) : List ℚ := List.zipWith (fun x y => x * y) a b

/-- Elementwise negation of a vector. -/
def listNeg (a : List ℚ) : List ℚ := a.map (fun x => -x)

/-- np.dot of two 1-D arrays: a scalar. -/
def dotL (a b : List ℚ) : ℚ := (listMul a b).sum

/-- Numpy fancy indexing v[idx] for a 1-D array; valid splits index in
range, out-of-range positions default to 0 here. -/
def select (v : List ℚ) (idx : List ℕ) : List ℚ :=
  idx.map (fun i => v.getD i 0)

/-- Numpy fancy indexing X[idx] for the row dimension of a matrix. -/
def selectX (X : List (List ℚ)) (idx : List ℕ) : List (List ℚ) :=
  idx.map (fun i => X.getD i [])

/-- Deterministic scikit-learn style regressor. algo turns a stored
training set and a query row into a prediction; it encodes the estimator
class and its hyperparameters and never changes. fitted is the mutable
fitted state: calling fit replaces it wholesale with the new training set,
exactly as refitting a scikit-learn estimator discards the previous fit. -/
structure SkLearner where
  algo : List (List ℚ) → List ℚ → List ℚ → ℚ
  fitted : Option (List (List ℚ) × List ℚ)

/-- Estimator.fit(X, t): returns the same object with its fitted state
replaced by the new training set (sklearn fit mutates in place and returns
self). -/
def SkLearner.fit (l : SkLearner) (X : List (List ℚ)) (t : List ℚ) : SkLearner :=
  { l with fitted := some (X, t) }

/-- Estimator.predict on one row. Predicting with an unfitted estimator
raises in sklearn, but every embedded code path fits before predicting, so
the none case is unreachable and mapped to 0. -/
def SkLearner.predict (l : SkLearner) (x : List ℚ) : ℚ :=
  match l.fitted with
  | some (A, b) => l.algo A b x
  | none => 0

/-- Estimator.predict on a matrix of query rows. -/
def SkLearner.predictList (l : SkLearner) (Xs : List (List ℚ)) : List ℚ :=
  Xs.map l.predict

/-- One nuisance computation inside the fold loop of DoubleMLPLR.fit
(dml_plr.py lines 48-49 and 53-54): train the learner on the rows indexed
by train, then predict on the rows indexed by test. -/
def foldFitPredict (ml : SkLearner) (X : List (List ℚ)) (t : List ℚ)
    (train test : List ℕ) : List ℚ :=
  (ml.fit (selectX X train) (select t train)).predictList (selectX X test)

/-- OrthDmlPlr.fit from dml_plr.py lines 76-105. The IV-type branch
computes np.mean(np.dot(v_hat, u_hat)) / np.mean(v_hatd); np.dot of two
1-D arrays is a scalar and np.mean of a scalar is that scalar, so the
value is dot(v,u) / dot(v,d) under numpy division semantics. The DML2018
branch refers to the name LinearRegression, which dml_plr.py never imports
(the module imports only numpy and check_X_y), so reaching that branch
raises NameError. Any other inf_model raises ValueError. -/
def OrthDmlPlr.fit (inf_model : String) (y d g_hat m_hat : List ℚ) :
    Except PyError NpFloat :=
  let u_hat := listSub y g_hat
  let v_hat := listSub d m_hat
  let v_hatd := dotL v_hat d
  if inf_model = "IV-type" then
    .ok (npDiv (dotL v_hat u_hat) v_hatd)
  else if inf_model = "DML2018" then
    .error (.nameError "LinearRegression")
  else
    .error (.valueError "invalid inf_model")

/-- The dml1 fold loop of DoubleMLPLR.fit (dml_plr.py lines 45-60),
threading the two learner objects exactly as the Python loop does: ml_g
and ml_m are single shared objects whose fit calls mutate them in place
each fold. The loop locals u_hat, v_hat and v_hatd of the source are dead
code (OrthDmlPlr.fit recomputes them from its own arguments) and are not
re-modelled here. Returns the list of per-fold thetas together with the
final states of the two learner objects. -/
def dml1Folds (inf_model : String) (ml_g ml_m : SkLearner)
    (X : List (List ℚ)) (y d : List ℚ) :
    List (List ℕ × List ℕ) → Except PyError (List NpFloat × SkLearner × SkLearner)
  | [] => .ok ([], ml_g, ml_m)
  | (train, test) :: rest =>
    let mlg := ml_g.fit (selectX X train) (select y train)
    let g_hat := mlg.predictList (selectX X test)
    let mlm := ml_m.fit (selectX X train) (select d train)
    let m_hat := mlm.predictList (selectX X test)
    match OrthDmlPlr.fit inf_model (select y test) (select d test) g_hat m_hat with
    | .error e => .error e
    | .ok th =>
      match dml1Folds inf_model mlg mlm X y d rest with
      | .error e => .error e
      | .ok (ths, gf, mf) => .ok (th :: ths, gf, mf)

/-- DoubleMLPLR.fit from dml_plr.py lines 19-66. check_X_y validates that
y and d have as many rows as X (embedded as a length guard); only
dml_procedure dml1 is implemented, every other value raises
ValueError("invalid dml_procedure"). np.mean over the thetas array of
length get_n_splits() is the mean over the folds of the resampling.
Returns coef_ together with the final states of the two shared learner
objects held in ml_learners. -/
def DoubleMLPLR.fit (dml_procedure inf_model : String)
    (resampling : List (List ℕ × List ℕ)) (ml_g ml_m : SkLearner)
    (X : List (List ℚ)) (y d : List ℚ) :
    Except PyError (NpFloat × SkLearner × SkLearner) :=
  if y.length = X.length ∧ d.length = X.length then
    if dml_procedure = "dml1" then
      match dml1Folds inf_model ml_g ml_m X y d resampling with
      | .error e => .error e
      | .ok (thetas, gf, mf) => .ok (npMean thetas, gf, mf)
    else .error (.valueError "invalid dml_procedure")
  else .error (.valueError "check_X_y: inconsistent numbers of samples")

/-- The per-fold thetas of the hand-computed cross-fitting reference
dml_cross_fitting from dml/tests/test_plr.py lines 72-82, with the same
learner threading as the test code (the test, too, reuses its ml_g and
ml_m objects across folds). Each fold computes
np.mean(np.dot(vhat, Y[test] - ghat)) / np.mean(np.dot(vhat, D[test])),
a quotient of two scalars. -/
def dml_cross_fitting (Y : List ℚ) (X : List (List ℚ)) (D : List ℚ)
    (ml_m ml_g : SkLearner) : List (List ℕ × List ℕ) → List NpFloat
  | [] => []
  | (train, test) :: rest =>
    let mlg := ml_g.fit (selectX X train) (select Y train)
    let ghat := mlg.predictList (selectX X test)
    let mlm := ml_m.fit (selectX X train) (select D train)
    let mhat := mlm.predictList (selectX X test)
    let vhat := listSub (select D test) mhat
    npDiv (dotL vhat (listSub (select Y test) ghat)) (dotL vhat (select D test))
      :: dml_cross_fitting Y X D mlm mlg rest

/-- The final theta of the manual reference: np.mean of the per-fold
thetas. -/
def dmlCrossFittingTheta (Y : List ℚ) (X : List (List ℚ)) (D : List ℚ)
    (ml_m ml_g : SkLearner) (resampling : List (List ℕ × List ℕ)) : NpFloat :=
  npMean (dml_cross_fitting Y X D ml_m ml_g resampling)

/-- The data container consumed by DoubleMLPLIV: covariates x, outcome y,
instrument z and treatment d. -/
structure DoubleMLData where
  x : List (List ℚ)
  y : List ℚ
  z : List ℚ
  d : List ℚ

/-- The inf_model argument of DoubleMLPLIV: a string, a callable receiving
(y, z, d, g_hat, m_hat, r_hat, smpls) and returning (score_a, score_b), or
any other Python value (neither a string nor callable). -/
inductive InfModel where
  | str : String → InfModel
  | callable : (List ℚ → List ℚ → List ℚ → List ℚ → List ℚ → List ℚ →
      List (List ℕ × List ℕ) → List ℚ × List ℚ) → InfModel
  | other : InfModel

/-- DoubleMLPLIV._check_inf_method from double_ml_pliv.py lines 74-88. For
a string outside valid_inf_model = the one-element list containing DML2018,
the source executes raise ValueError(...) whose message expression ends by
concatenating a str with the list valid_inf_model itself; evaluating that
argument raises TypeError before any ValueError is constructed. A
non-string non-callable value raises the descriptive ValueError; strings in
the valid list and callables pass through unchanged. -/
def _check_inf_method : InfModel → Except PyError InfModel
  | .str s =>
    if s ∈ ["DML2018"] then .ok (.str s)
    else .error (.typeError "can only concatenate str (not list) to str")
  | .callable f => .ok (.callable f)
  | .other => .error (.valueError "inf_model should be either a string or a callable.")

/-- Writes fold predictions into the accumulating length-N prediction
vector: position test[k] receives preds[k]. -/
def writeAt (acc : List ℚ) (test : List ℕ) (preds : List ℚ) : List ℚ :=
  (test.zip preds).foldl (fun a p => a.set p.1 p.2) acc

/-- Modelled from the spec: the helper _dml_cross_val_predict
(doubleml/helper.py) is imported by double_ml_pliv.py but its source is not
in src/. Following the NuisanceEstimator contract of the spec, it returns
a length-N vector filled fold by fold: for each (train, test) pair a fresh
copy of the model is trained on the train subset and its predictions on
the test subset are written at the corresponding indices. -/
def _dml_cross_val_predict (ml : SkLearner) (X : List (List ℚ)) (t : List ℚ)
    (smpls : List (List ℕ × List ℕ)) : List ℚ :=
  smpls.foldl
    (fun acc s =>
      writeAt acc s.2 ((ml.fit (selectX X s.1) (select t s.1)).predictList (selectX X s.2)))
    (List.replicate t.length 0)

/-- DoubleMLPLIV._ml_nuisance_and_score_elements from double_ml_pliv.py
lines 93-126, instrumented with two counters that record the observable
effects in source order: the number of underlying learner fit calls
performed before returning or raising (three cross-val-predict passes of
one fit per fold each), and the number of invocations of a callable
inf_model. check_X_y validates the shapes first; the three nuisances g, m
and r are then fitted and predicted; only after that does the source call
self._check_inf_method(inf_model), whose exception aborts the call. For a
string inf_model the score_b line runs for every string but score_a is
assigned only under the DML2018 test, so a string that somehow passed the
check without being DML2018 (and likewise the non-string non-callable arm)
would leave score_a unbound and the return statement would raise
NameError; those unreachable arms are embedded accordingly. -/
def _ml_nuisance_and_score_elements (inf_model : InfModel)
    (ml_g ml_m ml_r : SkLearner) (dat : DoubleMLData)
    (smpls : List (List ℕ × List ℕ)) :
    Except PyError (List ℚ × List ℚ) × ℕ × ℕ :=
  if dat.y.length = dat.x.length ∧ dat.z.length = dat.x.length ∧
      dat.d.length = dat.x.length then
    let g_hat := _dml_cross_val_predict ml_g dat.x dat.y smpls
    let m_hat := _dml_cross_val_predict ml_m dat.x dat.z smpls
    let r_hat := _dml_cross_val_predict ml_r dat.x dat.d smpls
    let nfits := 3 * smpls.length
    let u_hat := listSub dat.y g_hat
    let v_hat := listSub dat.z m_hat
    let w_hat := listSub dat.d r_hat
    match _check_inf_method inf_model with
    | .error e => (.error e, nfits, 0)
    | .ok _ =>
      match inf_model with
      | .str s =>
        if s = "DML2018" then
          (.ok (listNeg (listMul w_hat v_hat), listMul v_hat u_hat), nfits, 0)
        else (.error (.nameError "score_a"), nfits, 0)
      | .callable f =>
        (.ok (f dat.y dat.z dat.d g_hat m_hat r_hat smpls), nfits, 1)
      | .other => (.error (.nameError "score_a"), nfits, 0)
  else (.error (.valueError "check_X_y: inconsistent numbers of samples"), 0, 0)

/-! Concrete material shared by the witnesses and counterexamples: a
deterministic learner and a small dataset. -/

/-- Arithmetic mean of a list of rationals (sum over length). -/
def meanQ (a : List ℚ) : ℚ := a.sum / a.length

/-- A concrete deterministic regression capability: it predicts the mean of
its stored training targets, ignoring the query row (the deterministic
fold-mean learner the repository spec uses for hand-checked scenarios). -/
def meanLearner : SkLearner := ⟨fun _ b _ => meanQ b, none⟩

/-- Covariate rows of the concrete four-observation dataset. -/
def dataX : List (List ℚ) := [[1], [2], [4], [8]]

/-- Outcome vector of the concrete dataset. -/
def dataY : List ℚ := [1, 2, 3, 4]

/-- Treatment vector of the concrete dataset. -/
def dataD : List ℚ := [1, 0, 1, 0]

/-- Instrument vector of the concrete dataset. -/
def dataZ : List ℚ := [0, 1, 1, 0]

/-- A two-fold sample split of the four observations: test sets partition
the index set. -/
def smplsTwoFold : List (List ℕ × List ℕ) := [([0, 1], [2, 3]), ([2, 3], [0, 1])]

/-- A two-fold split with unequal fold sizes: the first fold tests three
observations, the second tests one. -/
def smplsUneven : List (List ℕ × List ℕ) := [([0], [1, 2, 3]), ([1, 2, 3], [0])]

/-- An alternative treatment vector used with the unequal-size split. -/
def dUneven : List ℚ := [3, 0, 2, 1]

/-- The PLIV data container built from the concrete dataset. -/
def dataPLIV : DoubleMLData := ⟨dataX, dataY, dataZ, dataD⟩

/-- The per-fold IV-type theta in closed form: np.dot(v, u) / np.dot(v, d)
over a fold's test indices, with u and v the out-of-fold residuals. The
learners enter only through their algorithms: foldFitPredict is
insensitive to their fitted states. -/
def foldTheta (ml_g ml_m : SkLearner) (X : List (List ℚ)) (y d : List ℚ)
    (s : List ℕ × List ℕ) : NpFloat :=
  let g_hat := foldFitPredict ml_g X y s.1 s.2
  let m_hat := foldFitPredict ml_m X d s.1 s.2
  let v_hat := listSub (select d s.2) m_hat
  npDiv (dotL v_hat (listSub (select y s.2) g_hat)) (dotL v_hat (select d s.2))

/-- The per-fold theta exactly as the claim words it: the quotient
mean(v*u) / mean(v*d) of the two fold means, stated for comparison with
the dot-product form the code computes. -/
def foldThetaSpec (ml_g ml_m : SkLearner) (X : List (List ℚ)) (y d : List ℚ)
    (s : List ℕ × List ℕ) : NpFloat :=
  let g_hat := foldFitPredict ml_g X y s.1 s.2
  let m_hat := foldFitPredict ml_m X d s.1 s.2
  let u := listSub (select y s.2) g_hat
  let v := listSub (select d s.2) m_hat
  npDiv (meanQ (listMul v u)) (meanQ (listMul v (select d s.2)))

/-- A concrete custom score callable: it returns the pair (z*d, y),
ignoring the nuisance predictions and the splits. -/
def customScore (y z d _g _m _r : List ℚ)
    (_smpls : List (List ℕ × List ℕ)) : List ℚ × List ℚ := (listMul z d, y)

/-! General lemmas about the embedded operations. -/

/-- Addition of two finite numpy values is finite addition. -/
lemma NpFloat.add_fin (a b : ℚ) : NpFloat.add (.fin a) (.fin b) = .fin (a + b) := rfl

/-- The IV-type branch of OrthDmlPlr.fit in closed form: the quotient of
np.dot(v_hat, u_hat) by np.dot(v_hat, d) under numpy division. -/
lemma orth_ivtype (y d g_hat m_hat : List ℚ) :
    OrthDmlPlr.fit "IV-type" y d g_hat m_hat =
      .ok (npDiv (dotL (listSub d m_hat) (listSub y g_hat))
                 (dotL (listSub d m_hat) d)) := rfl

/-- C5: OrthDmlPlr.fit with inf_model DML2018 does not compute the
no-intercept OLS coefficient of u on v; it raises NameError at once,
because dml_plr.py never imports LinearRegression (and even with the
import, its fit call passes u_hat in the feature slot and v_hat in the
target slot, the reverse of a regression of u on v). Shown here at the
concrete input y = [1, 2], d = [3, 4], g_hat = m_hat = [0, 0]. -/
theorem orth_dml2018_nameerror_cex :
    OrthDmlPlr.fit "DML2018" [1, 2] [3, 4] [0, 0] [0, 0] =
      .error (.nameError "LinearRegression") := rfl

/-- C6: configuring DoubleMLPLIV with the unrecognized inf_model string
IV-type does not fail fast with a descriptive ValueError before training:
_ml_nuisance_and_score_elements first fits all three nuisance learners on
every fold (the fit counter returns 6 = 3 nuisances times 2 folds) and
only then runs _check_inf_method, which itself raises TypeError while
concatenating its message string with the list valid_inf_model. -/
theorem pliv_check_after_training_typeerror :
    _ml_nuisance_and_score_elements (.str "IV-type") meanLearner meanLearner
      meanLearner dataPLIV smplsTwoFold =
      (.error (.typeError "can only concatenate str (not list) to str"), 6, 0) := rfl

/-- C4: dml2 is not a recognized dml_procedure of DoubleMLPLR.fit: on a
valid dataset and resampling it raises ValueError("invalid dml_procedure")
instead of pooling the scores. -/
theorem plr_fit_dml2_rejected_cex :
    DoubleMLPLR.fit "dml2" "IV-type" smplsTwoFold meanLearner meanLearner
      dataX dataY dataD = .error (.valueError "invalid dml_procedure") := rfl

/-- C4 (amended): DoubleMLPLR.fit implements only dml_procedure dml1; for
every other value, dml2 included, the fit of a valid dataset raises
ValueError("invalid dml_procedure"). -/
theorem plr_fit_non_dml1_valueerror (dml_procedure inf_model : String)
    (resampling : List (List ℕ × List ℕ)) (ml_g ml_m : SkLearner)
    (X : List (List ℚ)) (y d : List ℚ)
    (hproc : dml_procedure ≠ "dml1")
    (hy : y.length = X.length) (hd : d.length = X.length) :
    DoubleMLPLR.fit dml_procedure inf_model resampling ml_g ml_m X y d =
      .error (.valueError "invalid dml_procedure") := by
  unfold DoubleMLPLR.fit
  rw [if_pos ⟨hy, hd⟩, if_neg hproc]

/-- Witness for C4 (amended) at dml_procedure dml2 on the concrete
dataset. -/
theorem plr_fit_non_dml1_valueerror_witness :
    ("dml2" ≠ "dml1") ∧ dataY.length = dataX.length ∧ dataD.length = dataX.length ∧
      DoubleMLPLR.fit "dml2" "IV-type" smplsTwoFold meanLearner meanLearner
        dataX dataY dataD = .error (.valueError "invalid dml_procedure") :=
  ⟨by decide, rfl, rfl,
   plr_fit_non_dml1_valueerror _ _ _ _ _ _ _ _ (by decide) rfl rfl⟩

/-- C7: a fold whose IV-type denominator np.dot(v_hat, d) is zero does not
raise a numerical error: at y = [3, 1], d = [1, 1], g_hat = [0, 0],
m_hat = [2, 0] the residual v_hat is [-1, 1], the denominator is 0, and
OrthDmlPlr.fit returns minus infinity instead of raising. -/
theorem orth_ivtype_degenerate_cex :
    OrthDmlPlr.fit "IV-type" [3, 1] [1, 1] [0, 0] [2, 0] = .ok .negInf := by
  rw [orth_ivtype]
  norm_num [dotL, listSub, listMul, npDiv]

/-- C7 (amended): whenever the IV-type denominator np.dot(v_hat, d) is
zero and the numerator np.dot(v_hat, u_hat) is not, OrthDmlPlr.fit raises
nothing and returns the signed infinity of the numerator (numpy division
semantics); with both zero it returns nan. -/
theorem orth_ivtype_degenerate_returns_inf (y d g_hat m_hat : List ℚ)
    (h0 : dotL (listSub d m_hat) d = 0)
    (hne : dotL (listSub d m_hat) (listSub y g_hat) ≠ 0) :
    OrthDmlPlr.fit "IV-type" y d g_hat m_hat =
      .ok (if 0 < dotL (listSub d m_hat) (listSub y g_hat)
           then NpFloat.posInf else NpFloat.negInf) := by
  rw [orth_ivtype, h0]
  unfold npDiv
  rw [if_pos rfl, if_neg hne]

/-- Witness for C7 (amended) at y = [0, 5], d = [2, 2], g_hat = [0, 0],
m_hat = [3, 1], where the denominator is 0 and the numerator is 5. -/
theorem orth_ivtype_degenerate_returns_inf_witness :
    dotL (listSub [2, 2] [3, 1]) ([2, 2] : List ℚ) = 0 ∧
    dotL (listSub [2, 2] [3, 1]) (listSub [0, 5] [0, 0]) ≠ 0 ∧
    OrthDmlPlr.fit "IV-type" [0, 5] [2, 2] [0, 0] [3, 1] =
      .ok (if 0 < dotL (listSub [2, 2] [3, 1]) (listSub [0, 5] [0, 0])
           then NpFloat.posInf else NpFloat.negInf) := by
  have h0 : dotL (listSub [2, 2] [3, 1]) ([2, 2] : List ℚ) = 0 := by
    norm_num [dotL, listSub, listMul]
  have hne : dotL (listSub [2, 2] [3, 1]) (listSub [0, 5] [0, 0]) ≠ (0 : ℚ) := by
    norm_num [dotL, listSub, listMul]
  exact ⟨h0, hne, orth_ivtype_degenerate_returns_inf _ _ _ _ h0 hne⟩

/-- C2: out-of-fold invariance of the nuisance predictions. For an
observation i in the test indices of a fold whose train indices avoid i,
the fold's prediction vector (hence the prediction at i) is unchanged when
the target value at position i is perturbed with every other observation
held fixed: the model is fitted only on the train rows. The target t
stands for y (nuisance g) or d (nuisance m). -/
theorem nuisance_out_of_fold_invariant (ml : SkLearner) (X : List (List ℚ))
    (t t' : List ℚ) (train test : List ℕ) (i : ℕ)
    (hi : i ∈ test) (hdisj : i ∉ train) (hlen : t.length = t'.length)
    (hagree : ∀ j, j < t.length → j ≠ i → t.getD j 0 = t'.getD j 0) :
    foldFitPredict ml X t train test = foldFitPredict ml X t' train test := by
  have hsel : select t train = select t' train := by
    unfold select
    refine List.map_congr_left ?_
    intro j hj
    have hji : j ≠ i := fun h => hdisj (h ▸ hj)
    by_cases hlt : j < t.length
    · exact hagree j hlt hji
    · push_neg at hlt
      rw [List.getD_eq_default _ _ hlt, List.getD_eq_default _ _ (hlen ▸ hlt)]
  unfold foldFitPredict
  rw [hsel]

/-- Witness for C2: observation 2 is in the test fold, the train indices
are 0 and 1, and the target vectors differ exactly at position 2; the
out-of-fold predictions coincide. -/
theorem nuisance_out_of_fold_invariant_witness :
    (2 ∈ [2, 3]) ∧ (2 ∉ [0, 1]) ∧
      ([1, 2, 5, 4] : List ℚ).length = ([1, 2, 9, 4] : List ℚ).length ∧
      (∀ j, j < ([1, 2, 5, 4] : List ℚ).length → j ≠ 2 →
        ([1, 2, 5, 4] : List ℚ).getD j 0 = ([1, 2, 9, 4] : List ℚ).getD j 0) ∧
      foldFitPredict meanLearner dataX [1, 2, 5, 4] [0, 1] [2, 3] =
        foldFitPredict meanLearner dataX [1, 2, 9, 4] [0, 1] [2, 3] := by
  have hi : 2 ∈ [2, 3] := by simp
  have hdisj : 2 ∉ [0, 1] := by simp
  have hlen : ([1, 2, 5, 4] : List ℚ).length = ([1, 2, 9, 4] : List ℚ).length := rfl
  have hagree : ∀ j, j < ([1, 2, 5, 4] : List ℚ).length → j ≠ 2 →
      ([1, 2, 5, 4] : List ℚ).getD j 0 = ([1, 2, 9, 4] : List ℚ).getD j 0 := by
    intro j hj hji
    have hj4 : j < 4 := by simpa using hj
    interval_cases j <;> simp_all
  exact ⟨hi, hdisj, hlen, hagree,
    nuisance_out_of_fold_invariant meanLearner dataX _ _ _ _ 2 hi hdisj hlen hagree⟩

/-- C8: DoubleMLPLR.fit does not give each fold a private fresh copy of
the learners: the single shared ml_g and ml_m objects are refit in place
every fold. On the concrete two-fold run both objects end up fitted, and
their final fitted state is the second fold's training data, although they
were unfitted before the call (meanLearner.fitted = none). -/
theorem plr_fit_mutates_shared_learners_cex :
    DoubleMLPLR.fit "dml1" "IV-type" smplsTwoFold meanLearner meanLearner dataX dataY dataD
      = .ok (.fin (-1), { meanLearner with fitted := some ([[4], [8]], [3, 4]) },
             { meanLearner with fitted := some ([[4], [8]], [1, 0]) })
    ∧ meanLearner.fitted = none := by
  constructor
  · simp only [DoubleMLPLR.fit, dml1Folds, OrthDmlPlr.fit, meanLearner, dataX, dataY, dataD,
      smplsTwoFold, selectX, select, SkLearner.fit, SkLearner.predictList, SkLearner.predict,
      listSub, listMul, dotL, npDiv, npMean, npSum, NpFloat.add_fin, meanQ, foldFitPredict,
      List.map, List.getD, List.zipWith, List.sum, List.length]
    norm_num
    simp only [NpFloat.add_fin]
    norm_num
  · rfl

/-- C8 (amended): the shared learner objects are mutated across folds (see
the counterexample), but each in-place refit replaces the previous fitted
state completely, so no fitted state flows from one fold into another's
predictions: the coefficient returned by DoubleMLPLR.fit is independent of
the fitted states the two learner objects start in, and depends only on
their algorithms and the data. -/
theorem plr_fit_fitted_state_irrelevant (dml_procedure inf_model : String)
    (resampling : List (List ℕ × List ℕ))
    (aG aM : List (List ℚ) → List ℚ → List ℚ → ℚ)
    (sG sG' sM sM' : Option (List (List ℚ) × List ℚ))
    (X : List (List ℚ)) (y d : List ℚ) :
    (DoubleMLPLR.fit dml_procedure inf_model resampling ⟨aG, sG⟩ ⟨aM, sM⟩ X y d).map
        (fun p => p.1) =
    (DoubleMLPLR.fit dml_procedure inf_model resampling ⟨aG, sG'⟩ ⟨aM, sM'⟩ X y d).map
        (fun p => p.1) := by
  unfold DoubleMLPLR.fit
  by_cases hshape : y.length = X.length ∧ d.length = X.length
  · rw [if_pos hshape, if_pos hshape]
    by_cases hproc : dml_procedure = "dml1"
    · rw [if_pos hproc, if_pos hproc]
      cases resampling with
      | nil => rfl
      | cons s rest => rfl
    · rw [if_neg hproc, if_neg hproc]
  · rw [if_neg hshape, if_neg hshape]

/-- The dml1 fold loop yields exactly one theta per fold of the
resampling. -/
lemma dml1Folds_length (inf_model : String) (X : List (List ℚ)) (y d : List ℚ)
    (r : List (List ℕ × List ℕ)) :
    ∀ (ml_g ml_m : SkLearner) (ths : List NpFloat) (gf mf : SkLearner),
      dml1Folds inf_model ml_g ml_m X y d r = .ok (ths, gf, mf) →
      ths.length = r.length := by
  induction r with
  | nil =>
    intro ml_g ml_m ths gf mf h
    simp only [dml1Folds, Except.ok.injEq, Prod.mk.injEq] at h
    rw [← h.1]
    rfl
  | cons s rest ih =>
    intro ml_g ml_m ths gf mf h
    obtain ⟨train, test⟩ := s
    simp only [dml1Folds] at h
    split at h
    · exact absurd h (by simp)
    · split at h
      · exact absurd h (by simp)
      · rename_i ths2 gf2 mf2 heq
        simp only [Except.ok.injEq, Prod.mk.injEq] at h
        rw [← h.1]
        simp only [List.length_cons]
        rw [ih _ _ _ _ _ heq]

/-- C10: under dml_procedure dml1, whenever the fold loop produces the
per-fold theta estimates ths, the coefficient set by DoubleMLPLR.fit is
npMean ths, the unweighted arithmetic mean (sum over number of folds) of
one theta per fold, with no dependence on the sizes of the folds. -/
theorem plr_dml1_unweighted_fold_mean (inf_model : String)
    (resampling : List (List ℕ × List ℕ)) (ml_g ml_m : SkLearner)
    (X : List (List ℚ)) (y d : List ℚ) (ths : List NpFloat) (gf mf : SkLearner)
    (hy : y.length = X.length) (hd : d.length = X.length)
    (h : dml1Folds inf_model ml_g ml_m X y d resampling = .ok (ths, gf, mf)) :
    DoubleMLPLR.fit "dml1" inf_model resampling ml_g ml_m X y d =
      .ok (npMean ths, gf, mf) ∧ ths.length = resampling.length := by
  constructor
  · unfold DoubleMLPLR.fit
    rw [if_pos ⟨hy, hd⟩, if_pos rfl, h]
  · exact dml1Folds_length _ _ _ _ _ _ _ _ _ _ h

/-- Witness for C10 on the unequal-size two-fold split (test folds of
sizes three and one): the coefficient is the plain average of the two
per-fold thetas 11/4 and -2/3, giving each fold equal weight. -/
theorem plr_dml1_unweighted_fold_mean_witness :
    dataY.length = dataX.length ∧ dUneven.length = dataX.length ∧
    dml1Folds "IV-type" meanLearner meanLearner dataX dataY dUneven smplsUneven =
      .ok ([.fin (11/4), .fin (-2/3)],
           { meanLearner with fitted := some ([[2], [4], [8]], [2, 3, 4]) },
           { meanLearner with fitted := some ([[2], [4], [8]], [0, 2, 1]) }) ∧
    (DoubleMLPLR.fit "dml1" "IV-type" smplsUneven meanLearner meanLearner
        dataX dataY dUneven =
      .ok (npMean [.fin (11/4), .fin (-2/3)],
           { meanLearner with fitted := some ([[2], [4], [8]], [2, 3, 4]) },
           { meanLearner with fitted := some ([[2], [4], [8]], [0, 2, 1]) }) ∧
     ([NpFloat.fin (11/4), .fin (-2/3)] : List NpFloat).length = smplsUneven.length) := by
  have hfolds : dml1Folds "IV-type" meanLearner meanLearner dataX dataY dUneven smplsUneven =
      .ok ([.fin (11/4), .fin (-2/3)],
           { meanLearner with fitted := some ([[2], [4], [8]], [2, 3, 4]) },
           { meanLearner with fitted := some ([[2], [4], [8]], [0, 2, 1]) }) := by
    simp only [dml1Folds, OrthDmlPlr.fit, meanLearner, dataX, dataY, dUneven, smplsUneven,
      selectX, select, SkLearner.fit, SkLearner.predictList, SkLearner.predict,
      listSub, listMul, dotL, npDiv, meanQ,
      List.map, List.getD, List.zipWith, List.sum, List.length]
    norm_num
  exact ⟨rfl, rfl, hfolds,
    plr_dml1_unweighted_fold_mean "IV-type" smplsUneven meanLearner meanLearner
      dataX dataY dUneven _ _ _ rfl rfl hfolds⟩

/-- Writing fold predictions into the prediction vector preserves its
length. -/
lemma writeAt_length (test : List ℕ) (preds : List ℚ) :
    ∀ acc : List ℚ, (writeAt acc test preds).length = acc.length := by
  unfold writeAt
  generalize test.zip preds = l
  induction l with
  | nil => intro acc; rfl
  | cons p rest ih =>
    intro acc
    rw [List.foldl_cons, ih, List.length_set]

/-- The cross-validated prediction vector has one entry per observation of
the target vector. -/
lemma cvp_length (ml : SkLearner) (X : List (List ℚ)) (t : List ℚ)
    (smpls : List (List ℕ × List ℕ)) :
    (_dml_cross_val_predict ml X t smpls).length = t.length := by
  unfold _dml_cross_val_predict
  have h : ∀ (ss : List (List ℕ × List ℕ)) (acc : List ℚ),
      (ss.foldl (fun acc s =>
        writeAt acc s.2 ((ml.fit (selectX X s.1) (select t s.1)).predictList
          (selectX X s.2))) acc).length = acc.length := by
    intro ss
    induction ss with
    | nil => intro acc; rfl
    | cons s rest ih =>
      intro acc
      rw [List.foldl_cons, ih, writeAt_length]
  rw [h smpls _, List.length_replicate]

/-- C3: with inf_model the string DML2018,
DoubleMLPLIV._ml_nuisance_and_score_elements returns score vectors of
length N satisfying, per observation, score_a = -(w*v) and score_b = v*u,
where u = y - g_hat, v = z - m_hat and w = d - r_hat are the residuals of
the three out-of-fold nuisance prediction vectors. -/
theorem pliv_dml2018_scores (ml_g ml_m ml_r : SkLearner) (dat : DoubleMLData)
    (smpls : List (List ℕ × List ℕ))
    (hy : dat.y.length = dat.x.length) (hz : dat.z.length = dat.x.length)
    (hd : dat.d.length = dat.x.length) :
    ∃ score_a score_b,
      _ml_nuisance_and_score_elements (.str "DML2018") ml_g ml_m ml_r dat smpls =
        (.ok (score_a, score_b), 3 * smpls.length, 0) ∧
      score_a = listNeg (listMul
          (listSub dat.d (_dml_cross_val_predict ml_r dat.x dat.d smpls))
          (listSub dat.z (_dml_cross_val_predict ml_m dat.x dat.z smpls))) ∧
      score_b = listMul
          (listSub dat.z (_dml_cross_val_predict ml_m dat.x dat.z smpls))
          (listSub dat.y (_dml_cross_val_predict ml_g dat.x dat.y smpls)) ∧
      score_a.length = dat.y.length ∧ score_b.length = dat.y.length := by
  refine ⟨_, _, ?_, rfl, rfl, ?_, ?_⟩
  · unfold _ml_nuisance_and_score_elements
    rw [if_pos ⟨hy, hz, hd⟩]
    rfl
  · simp only [listNeg, listMul, listSub, List.length_map, List.length_zipWith,
      cvp_length, hy, hz, hd]
    simp
  · simp only [listMul, listSub, List.length_zipWith, cvp_length, hy, hz, hd]
    simp

/-- C9: with a callable inf_model, _ml_nuisance_and_score_elements invokes
the callable exactly once (the invocation counter is 1), passing the raw
outcome, instrument and treatment vectors, the three out-of-fold nuisance
prediction vectors and the sample splits; the pair the callable returns is
handed back unchanged, so it has length N exactly when the callable
honours its contract (the final hypothesis). -/
theorem pliv_callable_once
    (f : List ℚ → List ℚ → List ℚ → List ℚ → List ℚ → List ℚ →
      List (List ℕ × List ℕ) → List ℚ × List ℚ)
    (ml_g ml_m ml_r : SkLearner) (dat : DoubleMLData)
    (smpls : List (List ℕ × List ℕ))
    (hy : dat.y.length = dat.x.length) (hz : dat.z.length = dat.x.length)
    (hd : dat.d.length = dat.x.length)
    (hflen : (f dat.y dat.z dat.d (_dml_cross_val_predict ml_g dat.x dat.y smpls)
        (_dml_cross_val_predict ml_m dat.x dat.z smpls)
        (_dml_cross_val_predict ml_r dat.x dat.d smpls) smpls).1.length = dat.y.length ∧
      (f dat.y dat.z dat.d (_dml_cross_val_predict ml_g dat.x dat.y smpls)
        (_dml_cross_val_predict ml_m dat.x dat.z smpls)
        (_dml_cross_val_predict ml_r dat.x dat.d smpls) smpls).2.length = dat.y.length) :
    _ml_nuisance_and_score_elements (.callable f) ml_g ml_m ml_r dat smpls =
      (.ok (f dat.y dat.z dat.d (_dml_cross_val_predict ml_g dat.x dat.y smpls)
        (_dml_cross_val_predict ml_m dat.x dat.z smpls)
        (_dml_cross_val_predict ml_r dat.x dat.d smpls) smpls), 3 * smpls.length, 1) ∧
    ∃ score_a score_b,
      (_ml_nuisance_and_score_elements (.callable f) ml_g ml_m ml_r dat smpls).1 =
        .ok (score_a, score_b) ∧
      score_a.length = dat.y.length ∧ score_b.length = dat.y.length := by
  have heq : _ml_nuisance_and_score_elements (.callable f) ml_g ml_m ml_r dat smpls =
      (.ok (f dat.y dat.z dat.d (_dml_cross_val_predict ml_g dat.x dat.y smpls)
        (_dml_cross_val_predict ml_m dat.x dat.z smpls)
        (_dml_cross_val_predict ml_r dat.x dat.d smpls) smpls), 3 * smpls.length, 1) := by
    unfold _ml_nuisance_and_score_elements
    rw [if_pos ⟨hy, hz, hd⟩]
    rfl
  refine ⟨heq, _, _, ?_, hflen.1, hflen.2⟩
  rw [heq]

/-- Witness for C3 on the concrete PLIV dataset with the fold-mean learner
for all three nuisances. -/
theorem pliv_dml2018_scores_witness :
    dataPLIV.y.length = dataPLIV.x.length ∧ dataPLIV.z.length = dataPLIV.x.length ∧
    dataPLIV.d.length = dataPLIV.x.length ∧
    (∃ score_a score_b,
      _ml_nuisance_and_score_elements (.str "DML2018") meanLearner meanLearner
          meanLearner dataPLIV smplsTwoFold =
        (.ok (score_a, score_b), 3 * smplsTwoFold.length, 0) ∧
      score_a = listNeg (listMul
          (listSub dataPLIV.d (_dml_cross_val_predict meanLearner dataPLIV.x dataPLIV.d smplsTwoFold))
          (listSub dataPLIV.z (_dml_cross_val_predict meanLearner dataPLIV.x dataPLIV.z smplsTwoFold))) ∧
      score_b = listMul
          (listSub dataPLIV.z (_dml_cross_val_predict meanLearner dataPLIV.x dataPLIV.z smplsTwoFold))
          (listSub dataPLIV.y (_dml_cross_val_predict meanLearner dataPLIV.x dataPLIV.y smplsTwoFold)) ∧
      score_a.length = dataPLIV.y.length ∧ score_b.length = dataPLIV.y.length) :=
  ⟨rfl, rfl, rfl,
   pliv_dml2018_scores meanLearner meanLearner meanLearner dataPLIV smplsTwoFold rfl rfl rfl⟩

/-- Witness for C9 with the concrete callable customScore on the concrete
PLIV dataset. -/
theorem pliv_callable_once_witness :
    dataPLIV.y.length = dataPLIV.x.length ∧ dataPLIV.z.length = dataPLIV.x.length ∧
    dataPLIV.d.length = dataPLIV.x.length ∧
    ((customScore dataPLIV.y dataPLIV.z dataPLIV.d
        (_dml_cross_val_predict meanLearner dataPLIV.x dataPLIV.y smplsTwoFold)
        (_dml_cross_val_predict meanLearner dataPLIV.x dataPLIV.z smplsTwoFold)
        (_dml_cross_val_predict meanLearner dataPLIV.x dataPLIV.d smplsTwoFold)
        smplsTwoFold).1.length = dataPLIV.y.length ∧
     (customScore dataPLIV.y dataPLIV.z dataPLIV.d
        (_dml_cross_val_predict meanLearner dataPLIV.x dataPLIV.y smplsTwoFold)
        (_dml_cross_val_predict meanLearner dataPLIV.x dataPLIV.z smplsTwoFold)
        (_dml_cross_val_predict meanLearner dataPLIV.x dataPLIV.d smplsTwoFold)
        smplsTwoFold).2.length = dataPLIV.y.length) ∧
    (_ml_nuisance_and_score_elements (.callable customScore) meanLearner meanLearner
        meanLearner dataPLIV smplsTwoFold =
      (.ok (customScore dataPLIV.y dataPLIV.z dataPLIV.d
        (_dml_cross_val_predict meanLearner dataPLIV.x dataPLIV.y smplsTwoFold)
        (_dml_cross_val_predict meanLearner dataPLIV.x dataPLIV.z smplsTwoFold)
        (_dml_cross_val_predict meanLearner dataPLIV.x dataPLIV.d smplsTwoFold)
        smplsTwoFold), 3 * smplsTwoFold.length, 1) ∧
     ∃ score_a score_b,
       (_ml_nuisance_and_score_elements (.callable customScore) meanLearner meanLearner
           meanLearner dataPLIV smplsTwoFold).1 = .ok (score_a, score_b) ∧
       score_a.length = dataPLIV.y.length ∧ score_b.length = dataPLIV.y.length) :=
  ⟨rfl, rfl, rfl, ⟨rfl, rfl⟩,
   pliv_callable_once customScore meanLearner meanLearner meanLearner dataPLIV
     smplsTwoFold rfl rfl rfl ⟨rfl, rfl⟩⟩

/-- Dividing numerator and denominator by the same positive constant does
not change a numpy quotient, signed infinities and nan included. -/
lemma npDiv_div_pos (x y c : ℚ) (hc : 0 < c) :
    npDiv (x / c) (y / c) = npDiv x y := by
  by_cases hy : y = 0
  · subst hy
    rw [zero_div]
    by_cases hx : x = 0
    · subst hx
      rw [zero_div]
    · have hxc : x / c ≠ 0 := div_ne_zero hx hc.ne'
      have hpos : (0 < x / c) ↔ 0 < x := by rw [lt_div_iff₀ hc, zero_mul]
      unfold npDiv
      rw [if_pos rfl, if_pos rfl, if_neg hxc, if_neg hx]
      by_cases hp : 0 < x
      · rw [if_pos (hpos.mpr hp), if_pos hp]
      · rw [if_neg (fun h => hp (hpos.mp h)), if_neg hp]
  · have hyc : y / c ≠ 0 := div_ne_zero hy hc.ne'
    unfold npDiv
    rw [if_neg hyc, if_neg hy, div_div_div_cancel_right₀ hc.ne']

/-- A quotient of two means over lists of equal length equals the quotient
of the two sums (on the empty lists both sides are the nan of 0/0). -/
lemma npDiv_mean (a b : List ℚ) (hab : a.length = b.length) :
    npDiv (meanQ a) (meanQ b) = npDiv a.sum b.sum := by
  by_cases h0 : a.length = 0
  · have ha : a = [] := List.length_eq_zero.mp h0
    have hb : b = [] := List.length_eq_zero.mp (hab.symm.trans h0)
    subst ha; subst hb
    unfold meanQ
    rw [List.sum_nil, zero_div]
  · have hpos : (0 : ℚ) < a.length := by
      exact_mod_cast Nat.pos_of_ne_zero h0
    unfold meanQ
    rw [← hab]
    exact npDiv_div_pos _ _ _ hpos

/-- The manual reference's per-fold thetas, although computed with
learner objects threaded across folds, equal the per-fold closed form:
each refit replaces the fitted state, so only the algorithms matter. -/
lemma dml_cross_fitting_eq_map (X : List (List ℚ)) (y d : List ℚ)
    (aG aM : List (List ℚ) → List ℚ → List ℚ → ℚ) (r : List (List ℕ × List ℕ)) :
    ∀ (sG sM : Option (List (List ℚ) × List ℚ)),
      dml_cross_fitting y X d ⟨aM, sM⟩ ⟨aG, sG⟩ r =
        r.map (foldTheta ⟨aG, none⟩ ⟨aM, none⟩ X y d) := by
  induction r with
  | nil => intro sG sM; rfl
  | cons s rest ih =>
    intro sG sM
    obtain ⟨train, test⟩ := s
    simp only [dml_cross_fitting, List.map_cons]
    refine congrArg₂ List.cons rfl ?_
    exact ih _ _

/-- With inf_model IV-type the dml1 fold loop never raises and its
per-fold thetas are exactly those of the manual cross-fitting reference
from the test module. -/
lemma dml1Folds_eq_manual (X : List (List ℚ)) (y d : List ℚ)
    (r : List (List ℕ × List ℕ)) :
    ∀ (ml_g ml_m : SkLearner), ∃ gf mf,
      dml1Folds "IV-type" ml_g ml_m X y d r =
        .ok (dml_cross_fitting y X d ml_m ml_g r, gf, mf) := by
  induction r with
  | nil => intro ml_g ml_m; exact ⟨ml_g, ml_m, rfl⟩
  | cons s rest ih =>
    intro ml_g ml_m
    obtain ⟨train, test⟩ := s
    obtain ⟨gf, mf, hrest⟩ := ih (ml_g.fit (selectX X train) (select y train))
      (ml_m.fit (selectX X train) (select d train))
    refine ⟨gf, mf, ?_⟩
    simp only [dml1Folds, orth_ivtype, hrest, dml_cross_fitting]

/-- The claim's mean-quotient formula coincides with the dot-product
quotient the code computes: numerator and denominator lists have the same
length (the fold's test size), so the two means divide out. -/
lemma foldThetaSpec_eq (ml_g ml_m : SkLearner) (X : List (List ℚ)) (y d : List ℚ)
    (s : List ℕ × List ℕ) :
    foldThetaSpec ml_g ml_m X y d s = foldTheta ml_g ml_m X y d s := by
  unfold foldThetaSpec foldTheta
  have hlen : (listMul (listSub (select d s.2) (foldFitPredict ml_m X d s.1 s.2))
      (listSub (select y s.2) (foldFitPredict ml_g X y s.1 s.2))).length =
      (listMul (listSub (select d s.2) (foldFitPredict ml_m X d s.1 s.2))
      (select d s.2)).length := by
    simp [listMul, listSub, select, foldFitPredict, SkLearner.predictList, selectX,
      List.length_zipWith, List.length_map]
  rw [npDiv_mean _ _ hlen]
  rfl

/-- C1: DoubleMLPLR.fit with dml_procedure dml1 and inf_model IV-type sets
coef_ to the mean over the folds of mean(v*u)/mean(v*d), with u and v the
out-of-fold residuals of nuisances trained on the train indices only, and
this value equals the hand-computed manual cross-fitting reference
dml_cross_fitting of the test module. -/
theorem plr_dml1_ivtype_manual_crossfit (resampling : List (List ℕ × List ℕ))
    (ml_g ml_m : SkLearner) (X : List (List ℚ)) (y d : List ℚ)
    (hy : y.length = X.length) (hd : d.length = X.length) :
    ∃ gf mf,
      DoubleMLPLR.fit "dml1" "IV-type" resampling ml_g ml_m X y d =
        .ok (dmlCrossFittingTheta y X d ml_m ml_g resampling, gf, mf) ∧
      dmlCrossFittingTheta y X d ml_m ml_g resampling =
        npMean (resampling.map (foldThetaSpec ml_g ml_m X y d)) := by
  obtain ⟨gf, mf, hfold⟩ := dml1Folds_eq_manual X y d resampling ml_g ml_m
  refine ⟨gf, mf, ?_, ?_⟩
  · unfold DoubleMLPLR.fit
    rw [if_pos ⟨hy, hd⟩, if_pos rfl, hfold]
    rfl
  · unfold dmlCrossFittingTheta
    have h1 : dml_cross_fitting y X d ml_m ml_g resampling =
        resampling.map (foldTheta ⟨ml_g.algo, none⟩ ⟨ml_m.algo, none⟩ X y d) :=
      dml_cross_fitting_eq_map X y d ml_g.algo ml_m.algo resampling ml_g.fitted ml_m.fitted
    rw [h1]
    congr 1
    refine List.map_congr_left ?_
    intro s hs
    exact (foldThetaSpec_eq ml_g ml_m X y d s).symm

/-- Witness for C1 on the concrete dataset, two-fold split and fold-mean
learners. -/
theorem plr_dml1_ivtype_manual_crossfit_witness :
    dataY.length = dataX.length ∧ dataD.length = dataX.length ∧
    (∃ gf mf,
      DoubleMLPLR.fit "dml1" "IV-type" smplsTwoFold meanLearner meanLearner
          dataX dataY dataD =
        .ok (dmlCrossFittingTheta dataY dataX dataD meanLearner meanLearner smplsTwoFold,
             gf, mf) ∧
      dmlCrossFittingTheta dataY dataX dataD meanLearner meanLearner smplsTwoFold =
        npMean (smplsTwoFold.map (foldThetaSpec meanLearner meanLearner dataX dataY dataD))) :=
  ⟨rfl, rfl,
   plr_dml1_ivtype_manual_crossfit smplsTwoFold meanLearner meanLearner
     dataX dataY dataD rfl rfl⟩

end Dml
